import Mathlib

/-!
Verification of the BitMEX gateway (`src/vnpy/gateway/bitmex/bitmex_gateway.py`)
against its natural-language specification.

Shallow embedding conventions:
* Python `int` fields are modelled as `Int` (so non-negativity claims are
  meaningful, not typing artifacts); counters that are structurally `Nat`
  in the source (order counts, timestamps) are `Nat`.
* Numeric payload values that the source only passes through (prices,
  volumes — Python floats) are modelled as `Int`; no claim performs float
  arithmetic on them.
* Python dictionary truthiness (`if d["x"]:`) is modelled by comparing with
  the falsy value of the field's type (0, `""`, `none`).
* Missing dictionary keys are modelled by `Option` fields.
* The stateful methods become pure functions returning the new state plus
  the observable effects (HTTP requests issued, records emitted upward).
-/

/-! ## Rate governor (`BitmexRestApi.check_rate_limit` / `update_rate_limit` /
`reset_rate_limit`, lines 465-507) -/

/-- The rate-limit fields of `BitmexRestApi` (constructor, lines 179-181). -/
structure RateState where
  rate_limit_limit : Int
  rate_limit_remaining : Int
  rate_limit_sleep : Int
  deriving Repr, DecidableEq

/-- Initial values from `BitmexRestApi.__init__`: limit 60, remaining 60, sleep 0. -/
def initialRateState : RateState :=
  { rate_limit_limit := 60, rate_limit_remaining := 60, rate_limit_sleep := 0 }

/-- Source `check_rate_limit` (lines 491-507): returns `False` while the 429 sleep
countdown is nonzero, or when no local quota remains; otherwise decrements the
remaining quota and returns `True`. Returns the flag and the updated state. -/
def check_rate_limit (s : RateState) : Bool × RateState :=
  if s.rate_limit_sleep ≠ 0 then
    (false, s)
  else if s.rate_limit_remaining = 0 then
    (false, s)
  else
    (true, { s with rate_limit_remaining := s.rate_limit_remaining - 1 })

/-- Source `update_rate_limit` (lines 465-477) with a present response: overwrites
`rate_limit_remaining` with the `x-ratelimit-remaining` header, sets
`rate_limit_sleep` from the optional `Retry-After` header (adding one extra
second when it is nonzero). A `request.response is None` call is the identity
on the state and is omitted here. -/
def update_rate_limit (remainingHeader : Int) (retryAfter : Option Int)
    (s : RateState) : RateState :=
  let sleep0 := retryAfter.getD 0
  let sleep := if sleep0 ≠ 0 then sleep0 + 1 else sleep0
  { s with rate_limit_remaining := remainingHeader, rate_limit_sleep := sleep }

/-- Source `reset_rate_limit` (lines 479-489): adds one to the remaining quota, caps
it at the limit, and counts the sleep seconds down (only when nonzero). -/
def reset_rate_limit (s : RateState) : RateState :=
  let r := min (s.rate_limit_remaining + 1) s.rate_limit_limit
  let sleep :=
    if s.rate_limit_sleep ≠ 0 then s.rate_limit_sleep - 1 else s.rate_limit_sleep
  { s with rate_limit_remaining := r, rate_limit_sleep := sleep }

/-- One call into the rate governor: `tryAcquire` is `check_rate_limit`,
`observe` is `update_rate_limit` on a response's headers, `tick` is the
timer-driven `reset_rate_limit`. -/
inductive RateEvent where
  | tryAcquire : RateEvent
  | observe (remainingHeader : Int) (retryAfter : Option Int) : RateEvent
  | tick : RateEvent
  deriving Repr, DecidableEq

def stepRate (s : RateState) : RateEvent → RateState
  | .tryAcquire => (check_rate_limit s).2
  | .observe r ra => update_rate_limit r ra s
  | .tick => reset_rate_limit s

/-- Run a call sequence from the initial state. -/
def runRate (es : List RateEvent) : RateState :=
  es.foldl stepRate initialRateState

/-- The invariant claimed by the spec: `0 ≤ remaining ≤ limit` and the 429
sleep countdown (the spec's `penaltySeconds`) never negative. -/
def rateInvariant (s : RateState) : Prop :=
  0 ≤ s.rate_limit_remaining ∧
    s.rate_limit_remaining ≤ s.rate_limit_limit ∧ 0 ≤ s.rate_limit_sleep

instance (s : RateState) : Decidable (rateInvariant s) := by
  unfold rateInvariant; infer_instance

/-- An event whose header inputs are non-negative (the claim's hypothesis). -/
def eventNonneg : RateEvent → Prop
  | .tryAcquire => True
  | .observe r ra => 0 ≤ r ∧ 0 ≤ ra.getD 0
  | .tick => True

/-- An event whose observed remaining header is additionally at most the
limit 60 (the strengthening the counterexample forces). -/
def eventBounded : RateEvent → Prop
  | .tryAcquire => True
  | .observe r ra => 0 ≤ r ∧ r ≤ 60 ∧ 0 ≤ ra.getD 0
  | .tick => True

instance (e : RateEvent) : Decidable (eventNonneg e) := by
  cases e <;> (unfold eventNonneg; infer_instance)

instance (e : RateEvent) : Decidable (eventBounded e) := by
  cases e <;> (unfold eventBounded; infer_instance)

/-- C1, counterexample: A single `observe` call with the non-negative
remaining header 61 drives `remaining` above `limit` (= 60): the invariant
`remaining ≤ limit` does not survive arbitrary non-negative header values,
because `update_rate_limit` stores the server header without capping it. -/
theorem rate_invariant_fails_on_large_header :
    eventNonneg (RateEvent.observe 61 none) ∧
      ¬ rateInvariant (runRate [RateEvent.observe 61 none]) := by
  decide

/-- Auxiliary: the limit field is never mutated by any call. -/
theorem stepRate_limit (s : RateState) (e : RateEvent) :
    (stepRate s e).rate_limit_limit = s.rate_limit_limit := by
  cases e with
  | tryAcquire =>
    simp only [stepRate, check_rate_limit]
    repeat' split
    all_goals rfl
  | observe r ra => simp only [stepRate, update_rate_limit]
  | tick => simp only [stepRate, reset_rate_limit]

/-- Auxiliary: a single bounded call preserves the invariant when the limit
is 60. -/
theorem stepRate_invariant {s : RateState} (hlim : s.rate_limit_limit = 60)
    (hs : rateInvariant s) (e : RateEvent) (he : eventBounded e) :
    rateInvariant (stepRate s e) := by
  obtain ⟨h0, hle, hsl⟩ := hs
  cases e with
  | tryAcquire =>
    simp only [stepRate, check_rate_limit]
    split
    · exact ⟨h0, hle, hsl⟩
    split
    · exact ⟨h0, hle, hsl⟩
    rename_i h1 h2
    refine ⟨?_, ?_, ?_⟩ <;> simp only [] <;> omega
  | observe r ra =>
    obtain ⟨hr0, hr60, hra⟩ := he
    simp only [stepRate, update_rate_limit]
    split <;> refine ⟨?_, ?_, ?_⟩ <;> simp only [] <;> omega
  | tick =>
    simp only [stepRate, reset_rate_limit]
    split <;> refine ⟨?_, ?_, ?_⟩ <;> simp only [] <;> omega

/-- Auxiliary: the invariant is inductive over any bounded call sequence. -/
theorem runRate_aux (es : List RateEvent) : ∀ (s : RateState),
    s.rate_limit_limit = 60 → rateInvariant s → (∀ e ∈ es, eventBounded e) →
    rateInvariant (es.foldl stepRate s) := by
  induction es with
  | nil => intro s _ hs _; simpa using hs
  | cons e es ih =>
    intro s hlim hs hall
    simp only [List.foldl_cons]
    exact ih _ (by rw [stepRate_limit]; exact hlim)
      (stepRate_invariant hlim hs e (hall e (List.mem_cons_self e es)))
      (fun e' he' => hall e' (List.mem_cons_of_mem _ he'))

/-- C1, amended: For every sequence of `tryAcquire` / `observe` / `tick`
calls from the initial state in which each observed remaining header lies in
`[0, 60]` (the limit) and each Retry-After value is non-negative, the state
satisfies `0 ≤ remaining ≤ limit` and `sleep ≥ 0` after every call. (The
original claim, over arbitrary non-negative headers, fails: `update_rate_limit`
does not cap the header value at the limit.) -/
theorem rate_invariant_bounded_headers (es : List RateEvent)
    (h : ∀ e ∈ es, eventBounded e) : rateInvariant (runRate es) :=
  runRate_aux es initialRateState rfl (by decide) h

/-- Witness for C1 (amended): a concrete mixed call sequence with bounded
headers keeps the invariant. -/
theorem rate_invariant_bounded_headers_witness :
    rateInvariant (runRate
      [RateEvent.tryAcquire, RateEvent.observe 30 (some 2), RateEvent.tick,
        RateEvent.tryAcquire, RateEvent.tick, RateEvent.observe 0 none,
        RateEvent.tick]) :=
  rate_invariant_bounded_headers _ (by decide)

/-! ## Trading object model (`vnpy.trader.constant` / `vnpy.trader.object`
values used by the gateway; the enums are closed vocabularies, the record
shapes follow the constructor calls in the gateway source) -/

inductive Direction where
  | long : Direction
  | short : Direction
  deriving Repr, DecidableEq

inductive OrderType where
  | limit : OrderType
  | market : OrderType
  | stop : OrderType
  deriving Repr, DecidableEq

inductive Offset where
  | offsetNone : Offset
  | offsetOpen : Offset
  | close : Offset
  deriving Repr, DecidableEq

inductive Status where
  | submitting : Status
  | nottraded : Status
  | parttraded : Status
  | alltraded : Status
  | cancelled : Status
  | rejected : Status
  deriving Repr, DecidableEq

/-- Source `DIRECTION_VT2BITMEX` (line 56). -/
def DIRECTION_VT2BITMEX : Direction → String
  | .long => "Buy"
  | .short => "Sell"

/-- Source `ORDERTYPE_VT2BITMEX` (lines 59-63). -/
def ORDERTYPE_VT2BITMEX : OrderType → String
  | .limit => "Limit"
  | .market => "Market"
  | .stop => "Stop"

/-- Source `STATUS_BITMEX2VT` (lines 48-54), as the partial lookup a Python
`dict.get` performs: venue status strings outside the five keys map to
`none`. -/
def STATUS_BITMEX2VT : String → Option Status
  | "New" => some .nottraded
  | "Partially filled" => some .parttraded
  | "Filled" => some .alltraded
  | "Canceled" => some .cancelled
  | "Rejected" => some .rejected
  | _ => none

/-- Record `vnpy.trader.object.OrderData`, with the fields the gateway reads or
writes. `otype` stands for the source field `type` (a Lean keyword). -/
structure OrderData where
  symbol : String
  exchange : String
  orderid : String
  otype : OrderType
  direction : Direction
  price : Int
  volume : Int
  traded : Int
  status : Status
  time : String
  gateway_name : String
  deriving Repr, DecidableEq

/-- Record `vnpy.trader.object.OrderRequest`, with the fields `send_order` reads.
`otype` stands for the source field `type`. -/
structure OrderRequest where
  symbol : String
  exchange : String
  direction : Direction
  otype : OrderType
  volume : Int
  price : Int
  offset : Offset
  deriving Repr, DecidableEq

/-- Modelled from the spec: `OrderRequest.create_order_data` lives in
`vnpy.trader.object`, which is not part of this repository's sources. Per
spec §4.4 it "constructs an OrderRecord with status pending-not-traded"
(nothing traded yet) carrying the request's fields and the given local id. -/
def create_order_data (req : OrderRequest) (orderid gateway_name : String) :
    OrderData :=
  { symbol := req.symbol, exchange := req.exchange, orderid := orderid,
    otype := req.otype, direction := req.direction, price := req.price,
    volume := req.volume, traded := 0, status := .submitting, time := "",
    gateway_name := gateway_name }

/-- Modelled from the spec: `OrderData.vt_orderid` (also `vnpy.trader.object`)
is the host-facing id, gateway name joined with the local order id. -/
def vt_orderid (o : OrderData) : String :=
  o.gateway_name ++ "." ++ o.orderid

/-! ## `BitmexRestApi.send_order` (lines 252-297) and its error callback
(lines 409-421) -/

/-- The JSON body `send_order` posts (the `data` dict, lines 259-282). -/
structure OrderPayload where
  symbol : String
  side : String
  ordType : String
  orderQty : Int
  clOrdID : String
  price : Option Int
  stopPx : Option Int
  execInst : Option String
  deriving Repr, DecidableEq

/-- One outbound `add_request("POST", "/order", ...)` call. -/
structure SendOrderCall where
  method : String
  path : String
  data : OrderPayload
  deriving Repr, DecidableEq

/-- The `BitmexRestApi` fields `send_order` touches. -/
structure RestState where
  rate : RateState
  order_count : Nat
  connect_time : Nat
  gateway_name : String
  deriving Repr, DecidableEq

/-- Source `send_order` (lines 252-297): consult `check_rate_limit`; when denied
return the empty-string sentinel with no request and no emission; otherwise
build the client order id from `connect_time` plus the incremented counter,
assemble the payload (price only for limit orders, trigger price plus
`LastPrice` instruction for stop orders, `ReduceOnly` when the offset closes),
issue one POST `/order`, emit the locally created order, and return its
host-facing id. Result: (returned id, outbound calls, orders emitted to the
gateway, new state). -/
def send_order (req : OrderRequest) (s : RestState) :
    String × List SendOrderCall × List OrderData × RestState :=
  match check_rate_limit s.rate with
  | (false, _) => ("", [], [], s)
  | (true, r) =>
    let order_count := s.order_count + 1
    let orderid := toString (s.connect_time + order_count)
    let inst := (if req.otype = .stop then ["LastPrice"] else []) ++
      (if req.offset = .close then ["ReduceOnly"] else [])
    let payload : OrderPayload :=
      { symbol := req.symbol, side := DIRECTION_VT2BITMEX req.direction,
        ordType := ORDERTYPE_VT2BITMEX req.otype, orderQty := req.volume,
        clOrdID := orderid,
        price := if req.otype = .limit then some req.price else none,
        stopPx := if req.otype = .stop then some req.price else none,
        execInst := if inst.isEmpty then none
          else some (String.intercalate "," inst) }
    let order := create_order_data req orderid s.gateway_name
    (vt_orderid order, [{ method := "POST", path := "/order", data := payload }],
      [order], { s with rate := r, order_count := order_count })

/-- Whether `issubclass(exception_type, ConnectionError)` holds for the raised
exception: `connectionError` covers ConnectionError and its subclasses, any
other exception class is `otherException`. -/
inductive ExcType where
  | connectionError : ExcType
  | otherException (name : String) : ExcType
  deriving Repr, DecidableEq

/-- Observable effect of `on_send_order_error` (lines 409-421): the orders
forwarded to `gateway.on_order`, and whether `self.on_error` was invoked to
record the exception. -/
structure ErrorCallbackResult where
  emitted : List OrderData
  recorded : Bool
  deriving Repr, DecidableEq

/-- Source `on_send_order_error` (lines 409-421): unconditionally set the order's
status to REJECTED and forward it to the gateway; then record the exception
via `on_error` only when it is not a `ConnectionError`. -/
def on_send_order_error (exc : ExcType) (order : OrderData) :
    ErrorCallbackResult :=
  let order := { order with status := Status.rejected }
  { emitted := [order],
    recorded := match exc with
      | .connectionError => false
      | .otherException _ => true }

/-- A concrete order used in counterexamples and witnesses. -/
def sampleOrder : OrderData :=
  { symbol := "XBTUSD", exchange := "BITMEX", orderid := "200101000001000001",
    otype := .limit, direction := .long, price := 8000, volume := 2,
    traded := 0, status := .submitting, time := "", gateway_name := "BITMEX" }

/-- C2, counterexample: A plain `ConnectionError` during an order send
DOES mark the order rejected and forwards it: `on_send_order_error` sets
`Status.REJECTED` and calls `gateway.on_order` before it tests the exception
class, so the ConnectionError case is not "logged only" as claimed. -/
theorem on_send_order_error_connerror_rejects :
    (on_send_order_error ExcType.connectionError sampleOrder).emitted =
      [{ sampleOrder with status := Status.rejected }] ∧
      (on_send_order_error ExcType.connectionError sampleOrder).recorded
        = false := by
  decide

/-- C2, amended: For every transport-level exception — `ConnectionError`
included — `on_send_order_error` marks the order rejected and forwards it to
the host; the exception is additionally recorded through `on_error` exactly
when it is not a plain connectivity failure. -/
theorem on_send_order_error_always_rejects (exc : ExcType) (order : OrderData) :
    (on_send_order_error exc order).emitted =
      [{ order with status := Status.rejected }] ∧
      ((on_send_order_error exc order).recorded = true ↔
        exc ≠ ExcType.connectionError) := by
  refine ⟨rfl, ?_⟩
  cases exc <;> simp [on_send_order_error]

/-- C3: When the rate governor denies the acquisition (a positive 429
sleep countdown, or no remaining quota), `send_order` returns the
empty-string sentinel, issues no HTTP request, creates and emits no order
(in particular none marked rejected), and leaves the whole REST state
unchanged. -/
theorem send_order_denied_no_action (req : OrderRequest) (s : RestState)
    (h : 0 < s.rate.rate_limit_sleep ∨ s.rate.rate_limit_remaining = 0) :
    send_order req s = ("", [], [], s) := by
  have hc : check_rate_limit s.rate = (false, s.rate) := by
    unfold check_rate_limit
    by_cases hz : s.rate.rate_limit_sleep ≠ 0
    · rw [if_pos hz]
    · rw [if_neg hz]
      rcases h with h | h
      · omega
      · rw [if_pos h]
  simp only [send_order, hc]

/-- A concrete request/state pair for the C3 witness: remaining quota 0. -/
def sampleDeniedState : RestState :=
  { rate := ⟨60, 0, 0⟩, order_count := 1000000,
    connect_time := 200101000000 * 1000000, gateway_name := "BITMEX" }

/-- A concrete order request for the C3 witness. -/
def sampleRequest : OrderRequest :=
  { symbol := "XBTUSD", exchange := "BITMEX", direction := .long,
    otype := .limit, volume := 1, price := 8000, offset := .offsetOpen }

/-- Witness for C3 at a concrete request and an exhausted-quota state. -/
theorem send_order_denied_no_action_witness :
    send_order sampleRequest sampleDeniedState = ("", [], [], sampleDeniedState) :=
  send_order_denied_no_action _ _ (Or.inr rfl)

/-! ## `BitmexRestApi.query_history` (lines 319-388) -/

inductive VtInterval where
  | minute : VtInterval
  | hour : VtInterval
  | daily : VtInterval
  deriving Repr, DecidableEq

/-- Source `INTERVAL_VT2BITMEX` (lines 66-70). -/
def INTERVAL_VT2BITMEX : VtInterval → String
  | .minute => "1m"
  | .hour => "1h"
  | .daily => "1d"

/-- Source `TIMEDELTA_MAP` (lines 72-76), in seconds (timestamps are modelled as
seconds since an epoch; `datetime` arithmetic becomes `Nat` addition). -/
def TIMEDELTA_MAP : VtInterval → Nat
  | .minute => 60
  | .hour => 3600
  | .daily => 86400

/-- One row of the `/trade/bucketed` JSON response. `open_` stands for the
JSON key `open` (a Lean keyword); the parsed `timestamp` is modelled as
seconds. -/
structure HistRow where
  timestamp : Nat
  volume : Int
  open_ : Int
  high : Int
  low : Int
  close : Int
  deriving Repr, DecidableEq, Inhabited

/-- One HTTP response of the mocked `/trade/bucketed` endpoint. -/
structure HistResponse where
  status_code : Nat
  data : List HistRow
  deriving Repr, DecidableEq

/-- Record `vnpy.trader.object.HistoryRequest` fields `query_history` reads.
`endTime` stands for the source field `end` (a Lean keyword). -/
structure HistRequest where
  symbol : String
  exchange : String
  interval : VtInterval
  start : Nat
  endTime : Option Nat
  deriving Repr, DecidableEq

/-- Record `vnpy.trader.object.BarData` with the fields `query_history` writes. -/
structure BarData where
  symbol : String
  exchange : String
  datetime : Nat
  interval : VtInterval
  volume : Int
  open_price : Int
  high_price : Int
  low_price : Int
  close_price : Int
  gateway_name : String
  deriving Repr, DecidableEq

/-- The bar built from one response row (lines 360-374). -/
def mkBar (req : HistRequest) (gw : String) (d : HistRow) : BarData :=
  { symbol := req.symbol, exchange := req.exchange, datetime := d.timestamp,
    interval := req.interval, volume := d.volume, open_price := d.open_,
    high_price := d.high, low_price := d.low, close_price := d.close,
    gateway_name := gw }

/-- The query params of one `GET /trade/bucketed` page request
(lines 330-339). -/
structure PageRequest where
  binSize : String
  symbol : String
  count : Nat
  startTime : Nat
  endTime : Option Nat
  deriving Repr, DecidableEq

/-- The `while True` page loop of `query_history` (lines 328-386), recursing
on the mock endpoint's remaining responses: build the page params, issue the
request, stop on a non-2xx status or an empty body, otherwise append the
rows as bars; stop when the page is shorter than 750 rows, else advance the
start cursor to the last bar's time plus the interval and loop. -/
def query_history_pages (req : HistRequest) (gw : String) :
    List HistResponse → Nat → List BarData → List PageRequest →
      List BarData × List PageRequest
  | [], _, history, calls => (history, calls)
  | resp :: rest, start_time, history, calls =>
    let params : PageRequest :=
      { binSize := INTERVAL_VT2BITMEX req.interval, symbol := req.symbol,
        count := 750, startTime := start_time, endTime := req.endTime }
    let calls := calls ++ [params]
    if resp.status_code / 100 ≠ 2 then
      (history, calls)
    else if resp.data = [] then
      (history, calls)
    else
      let history := history ++ resp.data.map (mkBar req gw)
      if resp.data.length < 750 then
        (history, calls)
      else
        query_history_pages req gw rest
          ((resp.data.getLastD default).timestamp + TIMEDELTA_MAP req.interval)
          history calls

/-- Observable outcome of one `query_history` call: the returned value
(`none` models Python's bare `return` on rate-limit denial), the page
requests issued, the results of the `check_rate_limit` consultations, and
the REST state afterwards. -/
structure HistoryRunResult where
  result : Option (List BarData)
  calls : List PageRequest
  acquires : List Bool
  state : RestState
  deriving Repr, DecidableEq

/-- Source `query_history` (lines 319-388): one `check_rate_limit` consultation up
front — a denial returns `None` with no page request; a grant runs the page
loop starting at `req.start` with no further governor calls. -/
def query_history (req : HistRequest) (pages : List HistResponse)
    (s : RestState) : HistoryRunResult :=
  match check_rate_limit s.rate with
  | (false, r) =>
    { result := none, calls := [], acquires := [false],
      state := { s with rate := r } }
  | (true, r) =>
    let (history, calls) := query_history_pages req s.gateway_name pages req.start [] []
    { result := some history, calls := calls, acquires := [true],
      state := { s with rate := r } }

/-- A bucketed-trade row at second `t` with unit prices/volume. -/
def histRow (t : Nat) : HistRow :=
  { timestamp := t, volume := 1, open_ := 1, high := 1, low := 1, close := 1 }

/-- A 200 response with exactly 750 one-minute rows at 0s, 60s, …. -/
def page750 : HistResponse :=
  { status_code := 200, data := (List.range 750).map (fun i => histRow (i * 60)) }

/-- A 200 response with the 10 following one-minute rows. -/
def page10 : HistResponse :=
  { status_code := 200, data := (List.range 10).map (fun i => histRow ((750 + i) * 60)) }

/-- A 200 response with an empty body. -/
def pageEmpty : HistResponse :=
  { status_code := 200, data := [] }

/-- The C4/C5 scenario: 750 rows, then 10 rows, then an empty body. -/
def scenarioPages : List HistResponse := [page750, page10, pageEmpty]

/-- A concrete minute-interval history request starting at second 0. -/
def sampleHistRequest : HistRequest :=
  { symbol := "XBTUSD", exchange := "BITMEX", interval := .minute,
    start := 0, endTime := none }

/-- A REST state with full quota for the history scenario. -/
def sampleHistState : RestState :=
  { rate := initialRateState, order_count := 1000000, connect_time := 0,
    gateway_name := "BITMEX" }

set_option maxRecDepth 100000 in
/-- C4, counterexample: On the 750-row / 10-row / empty scenario the
query issues two page requests but consults the rate governor exactly once
(`check_rate_limit` is called only before the loop, lines 321-322): the
second page request is not preceded by any `tryAcquire` of its own. -/
theorem query_history_second_page_unguarded :
    (query_history sampleHistRequest scenarioPages sampleHistState).calls.length = 2 ∧
      (query_history sampleHistRequest scenarioPages sampleHistState).acquires = [true] := by
  constructor
  · rfl
  · rfl

/-- C4, amended: Every `query_history` call consults the rate governor
exactly once — before the first page — regardless of how many page requests
the loop then issues; when that single acquisition is denied, no page
request is issued at all. Pages after the first are NOT individually gated. -/
theorem query_history_single_acquire (req : HistRequest)
    (pages : List HistResponse) (s : RestState) :
    (query_history req pages s).acquires = [(check_rate_limit s.rate).1] ∧
      ((check_rate_limit s.rate).1 = false →
        (query_history req pages s).calls = []) := by
  unfold query_history
  rcases hc : check_rate_limit s.rate with ⟨g, r⟩
  cases g <;> simp [hc]

/-- Witness for C4 (amended) at the concrete scenario (grant) and at an
exhausted-quota state (denial, zero page requests). -/
theorem query_history_single_acquire_witness :
    (query_history sampleHistRequest scenarioPages sampleHistState).acquires
        = [(check_rate_limit sampleHistState.rate).1] ∧
      (query_history sampleHistRequest scenarioPages sampleDeniedState).calls = [] :=
  ⟨(query_history_single_acquire sampleHistRequest scenarioPages sampleHistState).1,
    (query_history_single_acquire sampleHistRequest scenarioPages sampleDeniedState).2 rfl⟩

set_option maxRecDepth 100000 in
/-- C5, counterexample: On the 750-row / 10-row / empty scenario the
pipeline does produce 760 bars, but it issues only two page requests: the
loop breaks as soon as the second page returns fewer than 750 rows
(line 382), so the empty body is never requested — the query does not "stop
after the empty page". -/
theorem query_history_stops_before_empty_page :
    ((query_history sampleHistRequest scenarioPages sampleHistState).result.map
        List.length) = some 760 ∧
      (query_history sampleHistRequest scenarioPages sampleHistState).calls.length = 2 ∧
      (query_history sampleHistRequest scenarioPages sampleHistState).calls.length ≠ 3 := by
  refine ⟨rfl, rfl, by decide⟩

set_option maxRecDepth 100000 in
/-- C5, amended: On the 750-row / 10-row / empty scenario,
`query_history` returns exactly 760 bars and stops after the 10-row page
(shorter than the 750 page size), never requesting the empty page; the
second page request's start cursor is the 750-row page's last bar timestamp
plus one bar interval. -/
theorem query_history_scenario_result :
    ((query_history sampleHistRequest scenarioPages sampleHistState).result.map
        List.length) = some 760 ∧
      ((query_history sampleHistRequest scenarioPages sampleHistState).calls.map
          PageRequest.startTime) =
        [sampleHistRequest.start,
          (page750.data.getLastD default).timestamp +
            TIMEDELTA_MAP sampleHistRequest.interval] := by
  constructor
  · rfl
  · rfl

/-! ## Signer (`BitmexRestApi.sign`, lines 183-216, and
`BitmexWebsocketApi.authenticate`, lines 609-622) -/

/-- Request fields read by `sign`: method, path, the already-urlencoded
query string (`none` when the params dict is falsy) and the
already-urlencoded body (`none` when the data dict is falsy); urlencoding
itself is the external `urllib.parse.urlencode`. -/
structure SignRequest where
  method : String
  path : String
  params : Option String
  data : Option String
  deriving Repr, DecidableEq

/-- Header set produced by `sign` (lines 207-213); the two content headers
are constants and omitted. -/
structure SignedHeaders where
  api_key : String
  api_expires : String
  api_signature : String
  deriving Repr, DecidableEq

/-- Source `BitmexRestApi.sign` (lines 183-216), parameterized by the
external HMAC-SHA256 hex primitive
(`hmac.new(secret, msg.encode(), sha256).hexdigest()`): the expiry is
`int(time.time() + 30)` and the signed message is
method + "/api/v1" + path[?query] + expiry + body. -/
def sign (hmacSha256Hex : String → String → String) (key secret : String)
    (now : Nat) (r : SignRequest) : SignedHeaders :=
  let expires := now + 30
  let path := match r.params with
    | some q => r.path ++ "?" ++ q
    | none => r.path
  let data := r.data.getD ""
  let msg := r.method ++ "/api/v1" ++ path ++ toString expires ++ data
  { api_key := key, api_expires := toString expires,
    api_signature := hmacSha256Hex secret msg }

/-- Outbound websocket authentication packet
`{"op": "authKey", "args": [key, expires, signature]}` (line 621). -/
structure AuthPacket where
  op : String
  args_key : String
  args_expires : Nat
  args_signature : String
  deriving Repr, DecidableEq

/-- Source `BitmexWebsocketApi.authenticate` (lines 609-622), parameterized
by the same external HMAC-SHA256 hex primitive: the expiry is
`int(time.time())` — the current time with no added skew — and the signed
message is "GET" + "/realtime" + expiry. -/
def authenticate (hmacSha256Hex : String → String → String)
    (key secret : String) (now : Nat) : AuthPacket :=
  let expires := now
  let method := "GET"
  let path := "/realtime"
  let msg := method ++ path ++ toString expires
  { op := "authKey", args_key := key, args_expires := expires,
    args_signature := hmacSha256Hex secret msg }

/-- A trivial stand-in HMAC used only to make counterexample inputs
concrete; the expiry computation does not depend on it. -/
def hmacStub : String → String → String := fun _ _ => ""

/-- C6, counterexample: at time 1000 the streaming signature's expiry is
1000, not 1000 + 30 — `authenticate` adds no 30-second skew, unlike the
REST `sign`. -/
theorem authenticate_expiry_no_skew :
    (authenticate hmacStub "k" "s" 1000).args_expires = 1000 ∧
      (authenticate hmacStub "k" "s" 1000).args_expires ≠ 1000 + 30 := by
  decide

/-- C6, amended: the REST signature carries expiry now + 30 and signs
method + "/api/v1" + path[?query] + expiry + urlencoded body with
HMAC-SHA256 (hex); the streaming signature signs "GET" + "/realtime" +
expiry but carries expiry equal to the current time with NO 30-second skew. -/
theorem sign_canonicalization (h : String → String → String)
    (key secret : String) (now : Nat) (r : SignRequest) :
    (sign h key secret now r).api_expires = toString (now + 30) ∧
      (sign h key secret now r).api_signature =
        h secret (r.method ++ "/api/v1" ++
          (match r.params with
            | some q => r.path ++ "?" ++ q
            | none => r.path) ++ toString (now + 30) ++ r.data.getD "") ∧
      (authenticate h key secret now).args_expires = now ∧
      (authenticate h key secret now).args_signature =
        h secret ("GET" ++ "/realtime" ++ toString now) :=
  ⟨rfl, rfl, rfl, rfl⟩

/-! ## Stream handlers (`BitmexWebsocketApi`, lines 510-736) -/

/-- Python slice `d["timestamp"][11:19]` (the HH:MM:SS part). -/
def sliceTime (s : String) : String :=
  String.mk ((s.data.drop 11).take 8)

/-- Execution-stream record, with the keys `on_trade` (lines 675-703) reads.
`side` carries the already-decoded `DIRECTION_BITMEX2VT` value, with `none`
for the falsy (absent/empty) side of funding records; `lastQty` is falsy at
0; `clOrdID` is falsy when empty. -/
structure ExecRecord where
  execID : String
  lastQty : Int
  side : Option Direction
  clOrdID : String
  orderID : String
  symbol : String
  lastPx : Int
  timestamp : String
  deriving Repr, DecidableEq

/-- Record `vnpy.trader.object.TradeData` with the fields `on_trade` sets. -/
structure TradeData where
  symbol : String
  exchange : String
  orderid : String
  tradeid : String
  direction : Direction
  price : Int
  volume : Int
  time : String
  gateway_name : String
  deriving Repr, DecidableEq

/-- The trade built at lines 691-701. -/
def mkTrade (gw : String) (d : ExecRecord) (dir : Direction) : TradeData :=
  { symbol := d.symbol, exchange := "BITMEX",
    orderid := if d.clOrdID ≠ "" then d.clOrdID else d.orderID,
    tradeid := d.execID, direction := dir, price := d.lastPx,
    volume := d.lastQty, time := sliceTime d.timestamp, gateway_name := gw }

/-- Source `BitmexWebsocketApi.on_trade` (lines 675-703): drop records with
falsy fill quantity or side; drop trade ids already in the dedup set;
otherwise add the id to the set and emit one trade. Returns the updated
dedup set (modelled as a list of ids) and the optional emission. -/
def on_trade (gw : String) (d : ExecRecord) (trades : List String) :
    List String × Option TradeData :=
  if d.lastQty = 0 then (trades, none)
  else
    match d.side with
    | none => (trades, none)
    | some dir =>
      if d.execID ∈ trades then (trades, none)
      else (d.execID :: trades, some (mkTrade gw d dir))

/-- Fold `on_trade` over a record sequence from the empty dedup set,
collecting the emissions in order. -/
def run_on_trade (gw : String) (ds : List ExecRecord) :
    List String × List TradeData :=
  ds.foldl (fun acc d =>
    let r := on_trade gw d acc.1
    (r.1, acc.2 ++ r.2.toList)) ([], [])

/-- Whether an execution record passes the fill filter: nonzero quantity and
a present side. -/
def validFill (d : ExecRecord) : Bool :=
  !(d.lastQty == 0) && d.side.isSome

/-- A zero-quantity execution record with trade id E1. -/
def zeroQtyRec : ExecRecord :=
  { execID := "E1", lastQty := 0, side := some .long, clOrdID := "",
    orderID := "O1", symbol := "XBTUSD", lastPx := 8000,
    timestamp := "2020-01-01T00:00:00.000Z" }

/-- C7, counterexample: the trade id E1 is delivered twice (both times with
zero fill quantity) yet the handler emits no trade at all — not exactly one
— and the dedup set also stays empty. -/
theorem on_trade_dup_zero_qty_no_emit :
    (run_on_trade "BITMEX" [zeroQtyRec, zeroQtyRec]).2 = [] ∧
      (run_on_trade "BITMEX" [zeroQtyRec, zeroQtyRec]).1 = [] := by
  decide

/-- Auxiliary: a filtered record (zero quantity or absent side) is a no-op:
the dedup set is untouched and nothing is emitted. -/
theorem on_trade_skip (gw : String) (d : ExecRecord) (ts : List String)
    (h : validFill d = false) : on_trade gw d ts = (ts, none) := by
  unfold validFill at h
  unfold on_trade
  by_cases hq : d.lastQty = 0
  · rw [if_pos hq]
  · rw [if_neg hq]
    cases hside : d.side with
    | none => rfl
    | some dir => simp [hq, hside] at h

/-- Auxiliary: the dedup invariant. Starting from a dedup set `ts` and
already-emitted list `out` in which the trade id `x` appears at most once,
and exactly once iff `x` is in the set, the final number of emissions with
id `x` is one iff it was already one or some remaining record delivers `x`
with a valid fill. -/
theorem run_on_trade_aux (gw : String) (x : String) :
    ∀ (ds : List ExecRecord) (ts : List String) (out : List TradeData),
      out.countP (fun t => t.tradeid == x) ≤ 1 →
      ((x ∈ ts) ↔ out.countP (fun t => t.tradeid == x) = 1) →
      (ds.foldl (fun acc d =>
          let r := on_trade gw d acc.1
          (r.1, acc.2 ++ r.2.toList)) (ts, out)).2.countP
            (fun t => t.tradeid == x) =
        if out.countP (fun t => t.tradeid == x) = 1 ∨
            ds.any (fun d => d.execID == x && validFill d) = true then 1
        else 0 := by
  intro ds
  induction ds with
  | nil =>
    intro ts out hle hiff
    simp only [List.foldl_nil, List.any_nil, Bool.false_eq_true, or_false]
    by_cases h1 : out.countP (fun t => t.tradeid == x) = 1
    · rw [if_pos h1]; exact h1
    · rw [if_neg h1]; omega
  | cons d ds ih =>
    intro ts out hle hiff
    simp only [List.foldl_cons, List.any_cons]
    by_cases hv : validFill d = true
    · -- the record passes the fill filter
      have hq : ¬ d.lastQty = 0 := by
        unfold validFill at hv
        intro h0
        simp [h0] at hv
      obtain ⟨dir, hside⟩ : ∃ dir, d.side = some dir := by
        unfold validFill at hv
        cases hs : d.side with
        | none => simp [hs] at hv
        | some dir => exact ⟨dir, rfl⟩
      by_cases hmem : d.execID ∈ ts
      · -- duplicate delivery: dropped
        have hstep : on_trade gw d ts = (ts, none) := by
          unfold on_trade
          rw [if_neg hq, hside]
          show (if d.execID ∈ ts then (ts, none)
            else (d.execID :: ts, some (mkTrade gw d dir))) = (ts, none)
          rw [if_pos hmem]
        simp only [hstep, Option.toList_none, List.append_nil]
        rw [ih ts out hle hiff]
        by_cases hx : d.execID = x
        · have hxts : x ∈ ts := hx ▸ hmem
          have h1 : out.countP (fun t => t.tradeid == x) = 1 := hiff.mp hxts
          simp [h1]
        · have : (d.execID == x) = false := by simp [hx]
          simp [this]
      · -- first delivery: emitted and recorded
        have hstep : on_trade gw d ts =
            (d.execID :: ts, some (mkTrade gw d dir)) := by
          unfold on_trade
          rw [if_neg hq, hside]
          show (if d.execID ∈ ts then (ts, none)
            else (d.execID :: ts, some (mkTrade gw d dir))) =
            (d.execID :: ts, some (mkTrade gw d dir))
          rw [if_neg hmem]
        simp only [hstep, Option.toList_some]
        have htid : (mkTrade gw d dir).tradeid = d.execID := rfl
        by_cases hx : d.execID = x
        · -- the new emission carries id x
          have hxts : ¬ x ∈ ts := hx ▸ hmem
          have h0 : out.countP (fun t => t.tradeid == x) = 0 := by
            have := hiff.mpr
            by_cases h1 : out.countP (fun t => t.tradeid == x) = 1
            · exact absurd (hiff.mpr h1) hxts
            · omega
          have hcnt : (out ++ [mkTrade gw d dir]).countP
              (fun t => t.tradeid == x) = 1 := by
            rw [List.countP_append, h0]
            simp [List.countP, List.countP.go, htid, hx]
          rw [ih (d.execID :: ts) (out ++ [mkTrade gw d dir]) (by omega)
            (by
              constructor
              · intro _; exact hcnt
              · intro _; exact hx ▸ List.mem_cons_self d.execID ts)]
          have hqd : (d.execID == x && validFill d) = true := by
            simp [hx, hv]
          simp [hcnt, hqd, h0]
        · -- the new emission carries a different id
          have hne : ((mkTrade gw d dir).tradeid == x) = false := by
            simp [htid, hx]
          have hcnt : (out ++ [mkTrade gw d dir]).countP
              (fun t => t.tradeid == x) =
              out.countP (fun t => t.tradeid == x) := by
            rw [List.countP_append]
            simp [List.countP, List.countP.go, hne]
          rw [ih (d.execID :: ts) (out ++ [mkTrade gw d dir]) (by omega)
            (by
              rw [hcnt]
              constructor
              · intro hmx
                rcases List.mem_cons.mp hmx with h | h
                · exact absurd h.symm hx
                · exact hiff.mp h
              · intro h1; exact List.mem_cons_of_mem _ (hiff.mpr h1))]
          have hqd : (d.execID == x && validFill d) = false := by
            simp [hx]
          simp [hcnt, hqd]
    · -- the record is filtered out: no-op
      have hv' : validFill d = false := by
        cases h : validFill d
        · rfl
        · exact absurd h hv
      have hstep := on_trade_skip gw d ts hv'
      simp only [hstep, Option.toList_none, List.append_nil]
      rw [ih ts out hle hiff]
      have hqd : (d.execID == x && validFill d) = false := by
        simp [hv']
      simp [hqd]

/-- C7, amended: a record with zero fill quantity or an absent side produces
no emission and no dedup-set mutation; and for any record sequence and any
trade id `x`, the number of emitted trades with id `x` is exactly one when
some delivery of `x` passes the fill filter (the first such delivery wins)
and zero otherwise — in particular a repeated id never emits twice, but an
id whose every delivery is filtered out emits zero trades, not one. -/
theorem on_trade_filter_and_dedup (gw : String) (ds : List ExecRecord)
    (x : String) :
    (∀ d ts, validFill d = false → on_trade gw d ts = (ts, none)) ∧
      (run_on_trade gw ds).2.countP (fun t => t.tradeid == x) =
        (if ds.any (fun d => d.execID == x && validFill d) = true then 1
          else 0) := by
  refine ⟨fun d ts h => on_trade_skip gw d ts h, ?_⟩
  have h := run_on_trade_aux gw x ds [] [] (by simp) (by simp)
  unfold run_on_trade
  rw [h]
  simp

/-- An execution record with a valid fill and trade id E2. -/
def validRec : ExecRecord :=
  { execID := "E2", lastQty := 5, side := some .long, clOrdID := "C1",
    orderID := "O2", symbol := "XBTUSD", lastPx := 8000,
    timestamp := "2020-01-01T00:00:01.000Z" }

/-- Witness for C7 (amended): a filtered record is a no-op on the empty
dedup set, and delivering E2 twice with valid fills emits exactly one trade. -/
theorem on_trade_filter_and_dedup_witness :
    on_trade "BITMEX" zeroQtyRec [] = ([], none) ∧
      (run_on_trade "BITMEX" [validRec, validRec]).2.countP
        (fun t => t.tradeid == "E2") = 1 := by
  constructor
  · exact (on_trade_filter_and_dedup "BITMEX" [] "E2").1 zeroQtyRec [] (by decide)
  · rw [(on_trade_filter_and_dedup "BITMEX" [validRec, validRec] "E2").2]
    decide

/-- Order-stream record, with the keys `on_order` (lines 705-736) reads.
`ordStatus` and `cumQty` are `Option` (tested with `in` / read with `.get`);
`ordType` and `side` carry the already-decoded `ORDERTYPE_BITMEX2VT` /
`DIRECTION_BITMEX2VT` values; `clOrdID` is falsy when empty. -/
structure OrdStreamRecord where
  ordStatus : Option String
  orderID : String
  clOrdID : String
  symbol : String
  ordType : OrderType
  side : Direction
  price : Int
  orderQty : Int
  timestamp : String
  cumQty : Option Int
  deriving Repr, DecidableEq

/-- Lookup in the `self.orders` dict, modelled as an association list. -/
def lookupOrder : List (String × OrderData) → String → Option OrderData
  | [], _ => none
  | (k, v) :: rest, key => if k = key then some v else lookupOrder rest key

/-- Store into the `self.orders` dict (overwrite or append). -/
def storeOrder : List (String × OrderData) → String → OrderData →
    List (String × OrderData)
  | [], key, v => [(key, v)]
  | (k, w) :: rest, key, v =>
    if k = key then (k, v) :: rest else (k, w) :: storeOrder rest key v

/-- Source `BitmexWebsocketApi.on_order` (lines 705-736): records without an
`ordStatus` key are ignored outright; otherwise the cached order for the
venue id is fetched (or created from the record on first sighting, with the
display id preferring a truthy `clOrdID`), its `traded` is set from `cumQty`
when present and its `status` from the venue-status map with the prior
status as the default, the cache keeps the mutated order, and a snapshot is
emitted. The Python code mutates the cached object in place; storing the
updated order under the venue id models the same cache content. -/
def on_order (gw : String) (d : OrdStreamRecord)
    (orders : List (String × OrderData)) :
    List (String × OrderData) × Option OrderData :=
  match d.ordStatus with
  | none => (orders, none)
  | some st =>
    let sysid := d.orderID
    let order :=
      match lookupOrder orders sysid with
      | some o => o
      | none =>
        { symbol := d.symbol, exchange := "BITMEX",
          orderid := if d.clOrdID ≠ "" then d.clOrdID else sysid,
          otype := d.ordType, direction := d.side, price := d.price,
          volume := d.orderQty, traded := 0, status := .submitting,
          time := sliceTime d.timestamp, gateway_name := gw }
    let order2 := { order with traded := d.cumQty.getD order.traded,
                               status := (STATUS_BITMEX2VT st).getD order.status }
    (storeOrder orders sysid order2, some order2)

/-- C8: a record lacking `ordStatus` causes no cache mutation and no
emission; a record whose `ordStatus` value is outside the venue-status map,
hitting a cached order, leaves that order's prior status unchanged while
still updating `traded` from a present `cumQty` and still emitting the
snapshot (the updated order is stored and emitted with `status` equal to
the prior status). -/
theorem on_order_missing_and_unmapped_status (gw : String)
    (d : OrdStreamRecord) (orders : List (String × OrderData))
    (o : OrderData) (st : String) :
    (d.ordStatus = none → on_order gw d orders = (orders, none)) ∧
      (d.ordStatus = some st → STATUS_BITMEX2VT st = none →
        lookupOrder orders d.orderID = some o →
        on_order gw d orders =
          (storeOrder orders d.orderID
              { o with traded := d.cumQty.getD o.traded },
            some { o with traded := d.cumQty.getD o.traded })) := by
  constructor
  · intro hnone
    unfold on_order
    rw [hnone]
  · intro hst hmap hlook
    unfold on_order
    rw [hst]
    show (storeOrder orders d.orderID _, some _) = _
    rw [hlook, hmap]
    rfl

/-- A cached order under venue id O9 used by the C8 and C10 witnesses. -/
def cachedOrder : OrderData :=
  { symbol := "XBTUSD", exchange := "BITMEX", orderid := "C9",
    otype := .limit, direction := .short, price := 9000, volume := 10,
    traded := 3, status := .parttraded, time := "00:00:02",
    gateway_name := "BITMEX" }

/-- An order-stream record with the unmapped venue status
"PendingCancel" and a present cumQty, targeting the cached O9 order. -/
def unmappedStatusRec : OrdStreamRecord :=
  { ordStatus := some "PendingCancel", orderID := "O9", clOrdID := "C9",
    symbol := "XBTUSD", ordType := .limit, side := .short, price := 9000,
    orderQty := 10, timestamp := "2020-01-01T00:00:03.000Z",
    cumQty := some 5 }

/-- An order-stream record with no ordStatus key. -/
def noStatusRec : OrdStreamRecord :=
  { ordStatus := none, orderID := "O9", clOrdID := "C9",
    symbol := "XBTUSD", ordType := .limit, side := .short, price := 9000,
    orderQty := 10, timestamp := "2020-01-01T00:00:03.000Z",
    cumQty := some 5 }

/-- Witness for C8 at a concrete cache: the status-less record is a no-op,
and the unmapped-status record keeps status PARTTRADED while updating
traded to 5 and emitting. -/
theorem on_order_missing_and_unmapped_status_witness :
    on_order "BITMEX" noStatusRec [("O9", cachedOrder)] =
        ([("O9", cachedOrder)], none) ∧
      on_order "BITMEX" unmappedStatusRec [("O9", cachedOrder)] =
        ([("O9", { cachedOrder with traded := 5 })],
          some { cachedOrder with traded := 5 }) := by
  constructor
  · exact (on_order_missing_and_unmapped_status "BITMEX" noStatusRec
      [("O9", cachedOrder)] cachedOrder "PendingCancel").1 rfl
  · have h := (on_order_missing_and_unmapped_status "BITMEX" unmappedStatusRec
      [("O9", cachedOrder)] cachedOrder "PendingCancel").2 rfl rfl (by decide)
    rw [h]
    decide

/-- C10 (frame): an order record whose venue id is already cached mutates
only the cached order's `traded` and `status` fields: the stored and
emitted order agrees with the prior cached order on symbol, exchange, type,
display orderid, direction, price, volume (and time and gateway name), and
every other cache key is untouched. -/
theorem on_order_frame (gw : String) (d : OrdStreamRecord)
    (orders : List (String × OrderData)) (o : OrderData) (st : String)
    (hst : d.ordStatus = some st)
    (hlook : lookupOrder orders d.orderID = some o) :
    ∃ o2, on_order gw d orders = (storeOrder orders d.orderID o2, some o2) ∧
      o2.symbol = o.symbol ∧ o2.exchange = o.exchange ∧
      o2.otype = o.otype ∧ o2.orderid = o.orderid ∧
      o2.direction = o.direction ∧ o2.price = o.price ∧
      o2.volume = o.volume ∧ o2.time = o.time ∧
      o2.gateway_name = o.gateway_name := by
  refine ⟨{ o with traded := d.cumQty.getD o.traded, status := (STATUS_BITMEX2VT st).getD o.status }, ?_, rfl, rfl, rfl, rfl, rfl, rfl, rfl, rfl, rfl⟩
  unfold on_order
  rw [hst]
  show (storeOrder orders d.orderID _, some _) = _
  rw [hlook]

/-- An order-stream record with the mapped venue status "Filled",
targeting the cached O9 order. -/
def filledStatusRec : OrdStreamRecord :=
  { ordStatus := some "Filled", orderID := "O9", clOrdID := "C9",
    symbol := "XBTUSD", ordType := .limit, side := .short, price := 9000,
    orderQty := 10, timestamp := "2020-01-01T00:00:04.000Z",
    cumQty := some 10 }

/-- Witness for C10 at a concrete cache and a mapped status update. -/
theorem on_order_frame_witness :
    ∃ o2, on_order "BITMEX" filledStatusRec [("O9", cachedOrder)] =
        (storeOrder [("O9", cachedOrder)] filledStatusRec.orderID o2,
          some o2) ∧
      o2.symbol = cachedOrder.symbol ∧ o2.exchange = cachedOrder.exchange ∧
      o2.otype = cachedOrder.otype ∧ o2.orderid = cachedOrder.orderid ∧
      o2.direction = cachedOrder.direction ∧ o2.price = cachedOrder.price ∧
      o2.volume = cachedOrder.volume ∧ o2.time = cachedOrder.time ∧
      o2.gateway_name = cachedOrder.gateway_name :=
  on_order_frame "BITMEX" filledStatusRec [("O9", cachedOrder)] cachedOrder
    "Filled" rfl (by decide)

/-! ## Stream session control (`BitmexWebsocketApi.on_packet`, lines 574-599) -/

/-- Whether the first list is an initial segment of the second. -/
def leadsWith : List Char → List Char → Bool
  | [], _ => true
  | _ :: _, [] => false
  | a :: as, b :: bs => a == b && leadsWith as bs

/-- Whether the first list occurs contiguously inside the second (Python's
`needle in haystack` on strings). -/
def containsSeq (needle : List Char) : List Char → Bool
  | [] => leadsWith needle []
  | c :: rest => leadsWith needle (c :: rest) || containsSeq needle rest

/-- The test `"not valid" in packet["error"]` (line 579). -/
def containsNotValid (s : String) : Bool :=
  containsSeq "not valid".data s.data

/-- Inbound packet shapes `on_packet` distinguishes by key presence
(lines 576, 582, 591): an error notice, a request acknowledgment, or a
topic-tagged data message (whose per-record handlers `on_trade` / `on_order`
are verified separately above). -/
inductive WsPacket where
  | errorNotice (text : String) : WsPacket
  | requestAck (op : String) (success : Bool) : WsPacket
  | tableData (table : String) : WsPacket
  deriving Repr, DecidableEq

/-- Effect of one `on_packet` dispatch on the session control state: the
`active` flag afterwards, and whether `subscribe_topic` was sent. -/
structure WsSessionEffect where
  active : Bool
  sentSubscribe : Bool
  deriving Repr, DecidableEq

/-- Source `BitmexWebsocketApi.on_packet` (lines 574-599), restricted to its
effect on the session control state: an error notice clears `self.active`
exactly when its text contains "not valid"; a successful `authKey`
acknowledgment sends the subscribe request; table messages leave the
session state alone. -/
def on_packet (p : WsPacket) (active : Bool) : WsSessionEffect :=
  match p with
  | .errorNotice text =>
    { active := if containsNotValid text then false else active,
      sentSubscribe := false }
  | .requestAck op success =>
    { active := active, sentSubscribe := success && op == "authKey" }
  | .tableData _ =>
    { active := active, sentSubscribe := false }

/-- Modelled from the spec: the reconnect loop lives in the excluded
`vnpy.api.websocket.WebsocketClient` transport (not under this repository's
sources). Per spec §4.5/§5, on each disconnect the client restarts the
state machine from Disconnected only while the session is active; a cleared
`active` flag is the terminal Error state in which no further automatic
reconnect attempt is made. This counts the reconnect attempts the transport
makes for a given number of subsequent disconnects. -/
def reconnectAttempts (active : Bool) (disconnects : Nat) : Nat :=
  if active then disconnects else 0

/-- C9: an error notice whose text contains "not valid" (structurally
invalid credentials) clears the active flag, and an inactive session makes
zero automatic reconnect attempts no matter how many disconnects follow;
an error notice without that text leaves the active flag as it was. -/
theorem on_packet_invalid_credentials_terminal (text : String)
    (active : Bool) (n : Nat) :
    (containsNotValid text = true →
      (on_packet (WsPacket.errorNotice text) active).active = false ∧
        reconnectAttempts
          (on_packet (WsPacket.errorNotice text) active).active n = 0) ∧
      (containsNotValid text = false →
        (on_packet (WsPacket.errorNotice text) active).active = active) := by
  constructor
  · intro h
    simp [on_packet, reconnectAttempts, h]
  · intro h
    simp [on_packet, h]

/-- Witness for C9: "Signature not valid." is terminal (no reconnect
attempts across 5 disconnects); "Rate limit exceeded" leaves the session
active. -/
theorem on_packet_invalid_credentials_terminal_witness :
    ((on_packet (WsPacket.errorNotice "Signature not valid.") true).active
        = false ∧
      reconnectAttempts
        (on_packet (WsPacket.errorNotice "Signature not valid.") true).active
        5 = 0) ∧
      (on_packet (WsPacket.errorNotice "Rate limit exceeded") true).active
        = true :=
  ⟨(on_packet_invalid_credentials_terminal "Signature not valid." true 5).1
      (by decide),
    (on_packet_invalid_credentials_terminal "Rate limit exceeded" true 5).2
      (by decide)⟩
